import Mathlib

/-!
Shallow embedding of the conversational assessment
orchestration layer: the HomePage form handlers (`handleSolarSubmit`,
`handleWindSubmit`, `getCoords`, `validateCoordinates`,
`handleCombinedAssessmentResult`), the API service layer (`handleApiError`,
`getCoordinates`, `calculateSolarPotential`, `processWindData`) and the
ChatWidget send cycle (`handleSendMessage`, `addMessage`).

JavaScript numbers are modelled as `JSNum` (NaN or a rational); network
round trips are modelled by an environment record fixing the outcome the
suspended call resumes with.
-/

namespace EcoNomics

/-- A JavaScript number: NaN or a (rational) value. -/
inductive JSNum where
  | nan : JSNum
  | val : ℚ → JSNum
deriving DecidableEq

/-- JS `isNaN`. -/
def JSNum.isNaN : JSNum → Bool
  | .nan => true
  | .val _ => false

/-- JS truthiness of a number: 0 and NaN are falsy. -/
def JSNum.isTruthy : JSNum → Bool
  | .nan => false
  | .val q => decide (q ≠ 0)

/-- JS `a >= b` for a number `a` against a constant: false when `a` is NaN. -/
def jsGe (a : JSNum) (b : ℚ) : Bool :=
  match a with
  | .nan => false
  | .val q => decide (b ≤ q)

/-- JS `a <= b` for a number `a` against a constant: false when `a` is NaN. -/
def jsLe (a : JSNum) (b : ℚ) : Bool :=
  match a with
  | .nan => false
  | .val q => decide (q ≤ b)

/-- JS `a < b` for a number `a` against a constant: false when `a` is NaN. -/
def jsLt (a : JSNum) (b : ℚ) : Bool :=
  match a with
  | .nan => false
  | .val q => decide (q < b)

/-- JS `a > b` for a number `a` against a constant: false when `a` is NaN. -/
def jsGt (a : JSNum) (b : ℚ) : Bool :=
  match a with
  | .nan => false
  | .val q => decide (b < q)

/-- JS `String.prototype.trim`: strip leading and trailing whitespace
(executable model of the `.trim()` calls in the handlers). -/
def jsTrim (s : String) : String :=
  ⟨((s.data.dropWhile Char.isWhitespace).reverse.dropWhile
      Char.isWhitespace).reverse⟩

/-- HomePage.tsx `validateCoordinates`: both numbers non-NaN,
latitude in [-90, 90] and longitude in [-180, 180]. -/
def validateCoordinates (lat lon : JSNum) : Bool :=
  !lat.isNaN && !lon.isNaN &&
  jsGe lat (-90) && jsLe lat 90 &&
  jsGe lon (-180) && jsLe lon 180

/-- The pre-flight coordinate check inside the API service operations
`calculateSolarPotential` / `processWindData`:
`!latitude || !longitude || isNaN(latitude) || isNaN(longitude) ||
 latitude < -90 || latitude > 90 || longitude < -180 || longitude > 180`. -/
def gatewayCoordsInvalid (lat lon : JSNum) : Bool :=
  !lat.isTruthy || !lon.isTruthy ||
  lat.isNaN || lon.isNaN ||
  jsLt lat (-90) || jsGt lat 90 ||
  jsLt lon (-180) || jsGt lon 180

/-- models/types `SolarAssessmentResponse`. -/
structure SolarAssessment where
  ac_annual : ℚ
  solrad_annual : ℚ
  capacity_factor : ℚ
  panel_area : ℚ
  annual_cost_savings : ℚ
  roi_years : ℚ
  co2_reduction : ℚ
deriving DecidableEq

/-- models/types `WindDataResponse`. -/
structure WindAssessment where
  total_energy_kwh : ℚ
  capacity_factor_percentage : ℚ
  cost_savings : ℚ
  message : Option String
deriving DecidableEq

/-! ## API service error mapping (apiService embedded in ThemeContext.tsx) -/

/-- The body of a non-2xx HTTP response, as seen by the error mapping:
either text that fails `JSON.parse`, or a parsed object whose `detail`
field may be absent. -/
inductive ErrorBody where
  | unparsable (raw : String)
  | parsed (detail : Option String)
deriving DecidableEq

/-- The error the mapping throws: a `new Error(msg)`, or the rethrown
`SyntaxError` from `JSON.parse` (a `SyntaxError` is an `instanceof Error`,
so the `catch (e)` rethrows it instead of substituting the generic
message). -/
inductive MappedError where
  | thrown (msg : String)
  | parseFailure (raw : String)
deriving DecidableEq

/-- The exact backend detail string that `handleApiError` rewrites. -/
def noClimateDataDetail : String :=
  "No climate data found with dataset=nsrdb for location specified: lat=56.0 lon=1.4"

/-- The user-facing no-coverage message. -/
def noCoverageMessage : String :=
  "We currently don\u0027t have coverage at this location."

/-- The exact backend detail string that the inline mapping in
`processWindData` rewrites. -/
def windNoCoverageDetail : String :=
  "We currently don\u0027t have coverage in this location."

/-- JS `errorJson.detail || errorMessage`: the detail when present and
non-empty (a missing or empty-string detail is falsy), otherwise the
generic message of the caller. -/
def detailOrDefault (detail : Option String) (errorMessage : String) : String :=
  match detail with
  | some d => if d = "" then errorMessage else d
  | none => errorMessage

/-- apiService `handleApiError(response, errorMessage)`, applied to the
body of a non-2xx response (used by `getCoordinates` and
`calculateSolarPotential`). -/
def handleApiError (body : ErrorBody) (errorMessage : String) : MappedError :=
  match body with
  | .unparsable raw => .parseFailure raw
  | .parsed detail =>
      if detail = some noClimateDataDetail then .thrown noCoverageMessage
      else .thrown (detailOrDefault detail errorMessage)

/-- Error mapping performed by `getCoordinates` on a non-2xx response. -/
def geocodeMapError (body : ErrorBody) : MappedError :=
  handleApiError body "Failed to fetch coordinates"

/-- Error mapping performed by `calculateSolarPotential` on a non-2xx
response. -/
def solarMapError (body : ErrorBody) : MappedError :=
  handleApiError body "Failed to calculate solar potential"

/-- Error mapping performed inline by `processWindData` on a non-2xx
response (its own copy, not a call to `handleApiError`, and keyed on a
different known detail string). -/
def windMapError (body : ErrorBody) : MappedError :=
  match body with
  | .unparsable raw => .parseFailure raw
  | .parsed detail =>
      if detail = some windNoCoverageDetail then .thrown noCoverageMessage
      else .thrown (detailOrDefault detail "Failed to process wind data")

/-! ## HomePage state and form handlers -/

/-- The reactive state of the HomePage component. -/
structure HomeState where
  cityName : String
  latitude : JSNum
  longitude : JSNum
  solarResult : Option SolarAssessment
  windResult : Option WindAssessment
  solarError : String
  windError : String
  loading : Bool
deriving DecidableEq

/-- HomePage.tsx `handleCombinedAssessmentResult`: the callback the chat
path invokes with an assistant-provided combined payload. It sets the
solar result, then the wind result, and touches nothing else. -/
def handleCombinedAssessmentResult (s : HomeState)
    (solarAssessment : SolarAssessment) (windAssessment : WindAssessment) :
    HomeState :=
  { s with solarResult := some solarAssessment,
           windResult := some windAssessment }

/-- An error thrown inside the `try` block of a form submit handler,
distinguished by throw site. -/
inductive ThrownError where
  | geocodeFailed
  | invalidCoordsForm
  | invalidCoordsGateway
  | netError (msg : String)
deriving DecidableEq

/-- The `.message` of the thrown `Error`, as used by the `catch`
clause. -/
def ThrownError.message : ThrownError → String
  | .geocodeFailed => "Failed to get coordinates for the provided city name"
  | .invalidCoordsForm => "Please enter valid coordinates or a city name"
  | .invalidCoordsGateway => "Invalid coordinates provided"
  | .netError m => m

/-- Whether a thrown error is one of the two client-side
invalid-coordinates errors. -/
def ThrownError.isInvalidCoords : ThrownError → Bool
  | .invalidCoordsForm => true
  | .invalidCoordsGateway => true
  | _ => false

/-- Outcome of the geocoding round trip for one submission. -/
inductive GeoResult where
  | ok (latitude longitude : ℚ)
  | fail
deriving DecidableEq

/-- The environment a submission runs against: the outcome each network
round trip resumes with, should the handler reach it. -/
structure Env where
  geo : GeoResult
  solarNet : Except String SolarAssessment
  windNet : Except String WindAssessment

/-- The observable effects of one submit handler run: the state it
leaves, the error thrown inside the `try` block (if any), and the
coordinate payload passed to the gateway calculation call (if the
handler reached it). -/
structure SubmitRun where
  state : HomeState
  thrown : Option ThrownError
  gatewayCall : Option (JSNum × JSNum)
deriving DecidableEq

/-- The body of apiService `calculateSolarPotential` once called with
payload `(lat, lon)`: pre-flight truthiness/range check, then the fetch
whose outcome `net` supplies. -/
def solarGatewayCall (net : Except String SolarAssessment)
    (lat lon : JSNum) (s : HomeState) : HomeState × Option ThrownError :=
  if gatewayCoordsInvalid lat lon then (s, some .invalidCoordsGateway)
  else
    match net with
    | .ok data => ({ s with solarResult := some data }, none)
    | .error m => (s, some (.netError m))

/-- The tail of the `try` block of `handleSolarSubmit` once `lat`/`lon` are
settled: `validateCoordinates`, then the `calculateSolarPotential`
call. -/
def solarAfterResolve (env : Env) (s : HomeState) (lat lon : JSNum) :
    SubmitRun :=
  if validateCoordinates lat lon then
    let r := solarGatewayCall env.solarNet lat lon s
    { state := r.1, thrown := r.2, gatewayCall := some (lat, lon) }
  else
    { state := s, thrown := some .invalidCoordsForm, gatewayCall := none }

/-- The `try` block of `handleSolarSubmit`: `lat`/`lon` start as the stored
coordinate fields; a non-empty trimmed city name routes through
`getCoords`, which on success overwrites the displayed coordinate fields
and supplies the coordinates used, and on failure throws. -/
def solarAttempt (env : Env) (s : HomeState) : SubmitRun :=
  if jsTrim s.cityName ≠ "" then
    match env.geo with
    | .fail => { state := s, thrown := some .geocodeFailed, gatewayCall := none }
    | .ok glat glon =>
        solarAfterResolve env
          { s with latitude := .val glat, longitude := .val glon }
          (.val glat) (.val glon)
  else
    solarAfterResolve env s s.latitude s.longitude

/-- HomePage.tsx `handleSolarSubmit` as a whole run: clear the solar
error, set `loading`, run the `try` block, on a thrown error set the
solar error to its message (`catch`), and clear `loading`
(`finally`). -/
def solarSubmitRun (env : Env) (s0 : HomeState) : SubmitRun :=
  let s1 := { s0 with solarError := "", loading := true }
  let run := solarAttempt env s1
  let s2 :=
    match run.thrown with
    | none => run.state
    | some e => { run.state with solarError := e.message }
  { run with state := { s2 with loading := false } }

/-- The state HomePage is left in after `handleSolarSubmit`. -/
def handleSolarSubmit (env : Env) (s0 : HomeState) : HomeState :=
  (solarSubmitRun env s0).state

/-- The body of apiService `processWindData` once called with
`(lat, lon)`: the same pre-flight check, then the fetch whose outcome
`net` supplies. -/
def windGatewayCall (net : Except String WindAssessment)
    (lat lon : JSNum) (s : HomeState) : HomeState × Option ThrownError :=
  if gatewayCoordsInvalid lat lon then (s, some .invalidCoordsGateway)
  else
    match net with
    | .ok data => ({ s with windResult := some data }, none)
    | .error m => (s, some (.netError m))

/-- The tail of the `try` block of `handleWindSubmit` once `lat`/`lon` are
settled. -/
def windAfterResolve (env : Env) (s : HomeState) (lat lon : JSNum) :
    SubmitRun :=
  if validateCoordinates lat lon then
    let r := windGatewayCall env.windNet lat lon s
    { state := r.1, thrown := r.2, gatewayCall := some (lat, lon) }
  else
    { state := s, thrown := some .invalidCoordsForm, gatewayCall := none }

/-- The `try` block of `handleWindSubmit`, with the same city-name routing
through `getCoords` as the solar handler. -/
def windAttempt (env : Env) (s : HomeState) : SubmitRun :=
  if jsTrim s.cityName ≠ "" then
    match env.geo with
    | .fail => { state := s, thrown := some .geocodeFailed, gatewayCall := none }
    | .ok glat glon =>
        windAfterResolve env
          { s with latitude := .val glat, longitude := .val glon }
          (.val glat) (.val glon)
  else
    windAfterResolve env s s.latitude s.longitude

/-- HomePage.tsx `handleWindSubmit` as a whole run: clear the wind
error, set `loading`, clear the wind result, run the `try` block, on a
thrown error set the wind error to its message, and clear `loading`. -/
def windSubmitRun (env : Env) (s0 : HomeState) : SubmitRun :=
  let s1 := { s0 with windError := "", loading := true, windResult := none }
  let run := windAttempt env s1
  let s2 :=
    match run.thrown with
    | none => run.state
    | some e => { run.state with windError := e.message }
  { run with state := { s2 with loading := false } }

/-- The state HomePage is left in after `handleWindSubmit`. -/
def handleWindSubmit (env : Env) (s0 : HomeState) : HomeState :=
  (windSubmitRun env s0).state

/-! ## ChatWidget state and send cycle -/

/-- A chat message role. -/
inductive Role where
  | user
  | assistant
deriving DecidableEq

/-- ChatWidget `Message`: id (from `Date.now()`), role and text. The
handler never constructs a message with the optional `isLoading` marker
set, so it is omitted. -/
structure ChatMessage where
  id : Nat
  role : Role
  message : String
deriving DecidableEq

/-- Outcome the chat fetch resumes with: a 2xx JSON body (`response`
text plus optional `solar_assessment` / `wind_assessment` payloads), a
non-2xx status, or a thrown fetch/parse error. -/
inductive ChatResponse where
  | ok (response : String) (solar : Option SolarAssessment)
      (wind : Option WindAssessment)
  | httpError
  | netFail
deriving DecidableEq

/-- The reactive state of the ChatWidget, together with the HomePage state it
reaches through the `onCombinedAssessmentResult` callback. -/
structure ChatState where
  messages : List ChatMessage
  input : String
  isLoading : Bool
  home : HomeState
deriving DecidableEq

/-- The fixed failure text the widget shows for any failed send. -/
def chatFailureMessage : String :=
  "Error: Unable to fetch response. Please try again later."

/-- ChatWidget `addMessage`: append a new message built from the current
clock value. -/
def addMessage (t : Nat) (role : Role) (text : String)
    (ms : List ChatMessage) : List ChatMessage :=
  ms ++ [{ id := t, role := role, message := text }]

/-- The synchronous prefix of `handleSendMessage` after the entry guard
passes, up to the suspension point of the fetch: append the trimmed user
message, clear the input, set the loading flag. -/
def sendPhase1 (tUser : Nat) (s : ChatState) : ChatState :=
  { s with messages := addMessage tUser .user (jsTrim s.input) s.messages,
           input := "",
           isLoading := true }

/-- ChatWidget `handleSendMessage` for one complete send cycle resuming
with `resp`: guard (`!input.trim() || isLoading`), synchronous phase,
then on resume append the assistant text (forwarding the combined
payload to `onCombinedAssessmentResult` only when both halves are
present) or append the fixed failure message; `finally` clears the
loading flag. -/
def handleSendMessage (resp : ChatResponse) (tUser tAsst : Nat)
    (s : ChatState) : ChatState :=
  if jsTrim s.input = "" || s.isLoading then s
  else
    let s1 := sendPhase1 tUser s
    let s2 :=
      match resp with
      | .ok r sa wa =>
          let s2a := { s1 with messages := addMessage tAsst .assistant r s1.messages }
          match sa, wa with
          | some solarA, some windA =>
              { s2a with home := handleCombinedAssessmentResult s2a.home solarA windA }
          | _, _ => s2a
      | .httpError =>
          { s1 with messages := addMessage tAsst .assistant chatFailureMessage s1.messages }
      | .netFail =>
          { s1 with messages := addMessage tAsst .assistant chatFailureMessage s1.messages }
    { s2 with isLoading := false }

/-! ## Concrete fixtures -/

/-- A sample solar assessment payload. -/
def solarA0 : SolarAssessment :=
  { ac_annual := 9000, solrad_annual := 5, capacity_factor := 1/5,
    panel_area := 30, annual_cost_savings := 1200, roi_years := 7,
    co2_reduction := 800 }

/-- A sample wind assessment payload. -/
def windA0 : WindAssessment :=
  { total_energy_kwh := 5000, capacity_factor_percentage := 30,
    cost_savings := 400, message := none }

/-- The empty HomePage state at session start. -/
def emptyHome : HomeState :=
  { cityName := "", latitude := .val 0, longitude := .val 0,
    solarResult := none, windResult := none,
    solarError := "", windError := "", loading := false }

/-- A HomePage state in which both error slots are populated. -/
def c1State : HomeState :=
  { emptyHome with solarError := "solar failed earlier",
                   windError := "wind failed earlier" }

/-- A chat state that is idle with both error slots populated on the
HomePage side. -/
def c8State : ChatState :=
  { messages := [], input := "   ", isLoading := false, home := emptyHome }

/-- An idle chat state holding a nonempty draft message. -/
def c9State : ChatState :=
  { messages := [], input := "hello", isLoading := false, home := c1State }

/-- An idle chat state with an empty transcript and a typed draft. -/
def c3State : ChatState :=
  { messages := [], input := "hi", isLoading := false, home := emptyHome }

/-- An idle chat state with one prior exchange in the transcript. -/
def c7State : ChatState :=
  { messages :=
      [{ id := 10, role := .user, message := "first question" },
       { id := 11, role := .assistant, message := "first answer" }],
    input := "second question", isLoading := false, home := emptyHome }

/-- An environment whose calculation calls both succeed. -/
def c2Env : Env :=
  { geo := .fail, solarNet := .ok solarA0, windNet := .ok windA0 }

/-- A HomePage state holding the in-range coordinate pair (0, 10) and no
city name. -/
def c2State : HomeState :=
  { emptyHome with latitude := .val 0, longitude := .val 10 }

/-- An environment whose calculation calls both fail with a backend
message. -/
def c2wEnv : Env :=
  { geo := .fail, solarNet := .error "backend down", windNet := .error "backend down" }

/-- A HomePage state holding the valid nonzero coordinate pair
(40, -74). -/
def c2wState : HomeState :=
  { emptyHome with latitude := .val 40, longitude := .val (-74) }

/-- An environment whose geocoder resolves to (40.71, -74.01). -/
def c5Env : Env :=
  { geo := .ok (4071/100) (-(7401/100)), solarNet := .ok solarA0,
    windNet := .ok windA0 }

/-- A HomePage state with a city name and conflicting manual
coordinates. -/
def c5State : HomeState :=
  { emptyHome with cityName := "New York", latitude := .val 1,
                   longitude := .val 2 }

/-- An environment whose calculation calls both fail. -/
def c6Env : Env :=
  { geo := .fail, solarNet := .error "solar backend down",
    windNet := .error "wind backend down" }

/-- A HomePage state holding a previously successful solar result and a
previously successful wind result. -/
def c6State : HomeState :=
  { emptyHome with latitude := .val 40, longitude := .val (-74),
                   solarResult := some solarA0, windResult := some windA0 }

/-- An environment whose calculation calls both fail, for the
failure-asymmetry claim. -/
def c10Env : Env :=
  { geo := .fail, solarNet := .error "solar exploded",
    windNet := .error "wind exploded" }

/-- A HomePage state holding prior results for both calculations. -/
def c10State : HomeState :=
  { emptyHome with latitude := .val 35, longitude := .val 139,
                   solarResult := some solarA0, windResult := some windA0 }

/-! ## Claim theorems -/

/-- C1 counterexample: the claim says `handleCombinedAssessmentResult`
clears both the solar error and the wind error; on a state where both
errors are populated, applying a combined payload leaves both error
fields populated. -/
theorem c1_counterexample :
    (handleCombinedAssessmentResult c1State solarA0 windA0).solarError
        = "solar failed earlier" ∧
    (handleCombinedAssessmentResult c1State solarA0 windA0).windError
        = "wind failed earlier" ∧
    ¬((handleCombinedAssessmentResult c1State solarA0 windA0).solarError = "" ∧
      (handleCombinedAssessmentResult c1State solarA0 windA0).windError = "") := by
  refine ⟨rfl, rfl, ?_⟩
  decide

/-- C1 (amended): `handleCombinedAssessmentResult` sets the solar result
and the wind result in the same call, and leaves every other field —
including both error slots — unchanged. -/
theorem c1_applyCombined_atomic (s : HomeState) (sa : SolarAssessment)
    (wa : WindAssessment) :
    (handleCombinedAssessmentResult s sa wa).solarResult = some sa ∧
    (handleCombinedAssessmentResult s sa wa).windResult = some wa ∧
    (handleCombinedAssessmentResult s sa wa).solarError = s.solarError ∧
    (handleCombinedAssessmentResult s sa wa).windError = s.windError ∧
    (handleCombinedAssessmentResult s sa wa).cityName = s.cityName ∧
    (handleCombinedAssessmentResult s sa wa).latitude = s.latitude ∧
    (handleCombinedAssessmentResult s sa wa).longitude = s.longitude ∧
    (handleCombinedAssessmentResult s sa wa).loading = s.loading :=
  ⟨rfl, rfl, rfl, rfl, rfl, rfl, rfl, rfl⟩

/-- C8: a send attempted with empty or whitespace-only input, or while a
previous send is still in flight, leaves the entire chat state —
transcript, input, loading flag, and assessment session — unchanged. -/
theorem c8_send_guard_ignores (resp : ChatResponse) (tUser tAsst : Nat)
    (s : ChatState) (h : jsTrim s.input = "" ∨ s.isLoading = true) :
    handleSendMessage resp tUser tAsst s = s := by
  unfold handleSendMessage
  rcases h with h | h <;> simp [h]

/-- C8 witness: a whitespace-only send on a concrete idle state is a
no-op. -/
theorem c8_send_guard_ignores_witness :
    handleSendMessage .httpError 1 2 c8State = c8State :=
  c8_send_guard_ignores .httpError 1 2 c8State (Or.inl rfl)

/-- C9: unless the assistant response carries both a solar and a wind
assessment payload, a send cycle leaves both assessment-session slots
unchanged. -/
theorem c9_session_updated_only_on_both (resp : ChatResponse)
    (tUser tAsst : Nat) (s : ChatState)
    (h : ∀ r sa wa, resp ≠ .ok r (some sa) (some wa)) :
    (handleSendMessage resp tUser tAsst s).home.solarResult
        = s.home.solarResult ∧
    (handleSendMessage resp tUser tAsst s).home.windResult
        = s.home.windResult := by
  unfold handleSendMessage
  split
  · exact ⟨rfl, rfl⟩
  · cases resp with
    | ok r sa wa =>
        cases sa with
        | none => simp [sendPhase1]
        | some solarA =>
            cases wa with
            | none => simp [sendPhase1]
            | some windA => exact absurd rfl (h r solarA windA)
    | httpError => simp [sendPhase1]
    | netFail => simp [sendPhase1]

/-- C9 witness: a response carrying only its text (neither assessment
half) leaves both slots of a concrete session unchanged. -/
theorem c9_session_updated_only_on_both_witness :
    (handleSendMessage (.ok "hi there" none none) 3 4 c9State).home.solarResult
        = c9State.home.solarResult ∧
    (handleSendMessage (.ok "hi there" none none) 3 4 c9State).home.windResult
        = c9State.home.windResult :=
  c9_session_updated_only_on_both (.ok "hi there" none none) 3 4 c9State
    (by intro r sa wa hEq; simp at hEq)

/-- C3 counterexample: the claim says the user message and a pending
placeholder are both appended before the network call suspends, and the
placeholder is later replaced in place. On a concrete send from an empty
transcript, the state at the suspension point holds exactly one message,
of user role — no placeholder exists — and the completed cycle has
grown the transcript by appending, not replacing. -/
theorem c3_counterexample :
    (sendPhase1 5 c3State).messages.length = 1 ∧
    (sendPhase1 5 c3State).messages.map ChatMessage.role = [Role.user] ∧
    (handleSendMessage (.ok "hello" none none) 5 6 c3State).messages.length
        = 2 := by
  refine ⟨rfl, rfl, rfl⟩

/-- C3 (amended): in a send cycle that passes the entry guard, only the
user message is appended synchronously before the network call suspends
(together with clearing the input and raising the loading flag); on
completion or failure a single new assistant message is appended after
it — nothing is replaced in place. -/
theorem c3_sync_phase_appends_user_only (resp : ChatResponse)
    (tUser tAsst : Nat) (s : ChatState)
    (hin : jsTrim s.input ≠ "") (hld : s.isLoading = false) :
    (sendPhase1 tUser s).messages =
      s.messages ++ [{ id := tUser, role := .user, message := jsTrim s.input }] ∧
    (sendPhase1 tUser s).isLoading = true ∧
    (sendPhase1 tUser s).input = "" ∧
    ∃ m, (handleSendMessage resp tUser tAsst s).messages =
      (sendPhase1 tUser s).messages ++
        [{ id := tAsst, role := .assistant, message := m }] := by
  refine ⟨rfl, rfl, rfl, ?_⟩
  cases resp with
  | ok r sa wa =>
      refine ⟨r, ?_⟩
      unfold handleSendMessage
      simp only [hin, hld]
      cases sa <;> cases wa <;> simp [addMessage, sendPhase1]
  | httpError =>
      refine ⟨chatFailureMessage, ?_⟩
      unfold handleSendMessage
      simp [hin, hld, addMessage, sendPhase1]
  | netFail =>
      refine ⟨chatFailureMessage, ?_⟩
      unfold handleSendMessage
      simp [hin, hld, addMessage, sendPhase1]

/-- C3 witness: the amended statement instantiated at a concrete send
cycle resuming with a successful response. -/
theorem c3_sync_phase_appends_user_only_witness :
    (sendPhase1 5 c3State).messages =
      c3State.messages ++
        [{ id := 5, role := .user, message := jsTrim c3State.input }] ∧
    (sendPhase1 5 c3State).isLoading = true ∧
    (sendPhase1 5 c3State).input = "" ∧
    ∃ m, (handleSendMessage (.ok "hello" none none) 5 6 c3State).messages =
      (sendPhase1 5 c3State).messages ++
        [{ id := 6, role := .assistant, message := m }] :=
  c3_sync_phase_appends_user_only (.ok "hello" none none) 5 6 c3State
    (by decide) rfl

/-- C7: a send cycle that fails — non-2xx status or a thrown fetch
error — leaves the transcript equal to the prior transcript followed by
the user message and then an assistant-role failure message: length
grows by exactly two and every previously appended message keeps its
position. -/
theorem c7_failed_send_appends_two (resp : ChatResponse) (tUser tAsst : Nat)
    (s : ChatState) (hin : jsTrim s.input ≠ "") (hld : s.isLoading = false)
    (hfail : resp = .httpError ∨ resp = .netFail) :
    (handleSendMessage resp tUser tAsst s).messages =
      s.messages ++
        [{ id := tUser, role := .user, message := jsTrim s.input },
         { id := tAsst, role := .assistant, message := chatFailureMessage }] ∧
    (handleSendMessage resp tUser tAsst s).messages.length
        = s.messages.length + 2 := by
  rcases hfail with h | h <;> subst h <;>
    constructor <;>
      simp [handleSendMessage, hin, hld, sendPhase1, addMessage]

/-- C7 witness: a concrete failing send on a transcript with one prior
exchange appends exactly the user message and the failure message. -/
theorem c7_failed_send_appends_two_witness :
    (handleSendMessage .netFail 20 21 c7State).messages =
      c7State.messages ++
        [{ id := 20, role := .user, message := jsTrim c7State.input },
         { id := 21, role := .assistant, message := chatFailureMessage }] ∧
    (handleSendMessage .netFail 20 21 c7State).messages.length
        = c7State.messages.length + 2 :=
  c7_failed_send_appends_two .netFail 20 21 c7State (by decide) rfl
    (Or.inr rfl)

/-- C4 counterexample: the claim says the non-2xx error mapping is one
shared pure function, so the same error body maps identically at every
call site. The structured body whose detail is the known wind
no-coverage string is passed through unchanged by the solar mapping but
rewritten to the user-facing no-coverage message by the wind mapping. -/
theorem c4_counterexample :
    solarMapError (.parsed (some windNoCoverageDetail))
        = .thrown windNoCoverageDetail ∧
    windMapError (.parsed (some windNoCoverageDetail))
        = .thrown noCoverageMessage ∧
    windNoCoverageDetail ≠ noCoverageMessage := by
  refine ⟨by decide, by decide, by decide⟩

/-- C4 (amended): geocoding and solar share `handleApiError`, which
rewrites the known NSRDB no-climate-data detail; wind uses its own
inline copy keyed on a different known no-coverage detail. All three
pass any other non-empty structured detail through unchanged, fall back
to their own generic message only when a parsed body lacks a non-empty
detail, and propagate the JSON parse failure on an unparsable body — so
the mapping is call-site independent except at the two known detail
strings and the generic fallbacks. -/
theorem c4_error_mapping_per_site (d raw : String)
    (h1 : d ≠ noClimateDataDetail) (h2 : d ≠ windNoCoverageDetail)
    (h3 : d ≠ "") :
    geocodeMapError (.parsed (some d)) = .thrown d ∧
    solarMapError (.parsed (some d)) = .thrown d ∧
    windMapError (.parsed (some d)) = .thrown d ∧
    geocodeMapError (.unparsable raw) = .parseFailure raw ∧
    solarMapError (.unparsable raw) = .parseFailure raw ∧
    windMapError (.unparsable raw) = .parseFailure raw ∧
    geocodeMapError (.parsed (some noClimateDataDetail))
        = .thrown noCoverageMessage ∧
    solarMapError (.parsed (some noClimateDataDetail))
        = .thrown noCoverageMessage ∧
    windMapError (.parsed (some windNoCoverageDetail))
        = .thrown noCoverageMessage ∧
    geocodeMapError (.parsed none) = .thrown "Failed to fetch coordinates" ∧
    solarMapError (.parsed none) = .thrown "Failed to calculate solar potential" ∧
    windMapError (.parsed none) = .thrown "Failed to process wind data" := by
  refine ⟨?_, ?_, ?_, rfl, rfl, rfl, by decide, by decide, by decide,
    rfl, rfl, rfl⟩ <;>
    simp [geocodeMapError, solarMapError, windMapError, handleApiError,
      detailOrDefault, h1, h2, h3]

/-- C4 witness: the amended statement instantiated at a generic detail
string and a garbage body. -/
theorem c4_error_mapping_per_site_witness :
    geocodeMapError (.parsed (some "boom")) = .thrown "boom" ∧
    solarMapError (.parsed (some "boom")) = .thrown "boom" ∧
    windMapError (.parsed (some "boom")) = .thrown "boom" ∧
    geocodeMapError (.unparsable "<html>") = .parseFailure "<html>" ∧
    solarMapError (.unparsable "<html>") = .parseFailure "<html>" ∧
    windMapError (.unparsable "<html>") = .parseFailure "<html>" ∧
    geocodeMapError (.parsed (some noClimateDataDetail))
        = .thrown noCoverageMessage ∧
    solarMapError (.parsed (some noClimateDataDetail))
        = .thrown noCoverageMessage ∧
    windMapError (.parsed (some windNoCoverageDetail))
        = .thrown noCoverageMessage ∧
    geocodeMapError (.parsed none) = .thrown "Failed to fetch coordinates" ∧
    solarMapError (.parsed none) = .thrown "Failed to calculate solar potential" ∧
    windMapError (.parsed none) = .thrown "Failed to process wind data" :=
  c4_error_mapping_per_site "boom" "<html>" (by decide) (by decide) (by decide)

/-- C6: a failing wind submission leaves the stored solar result and
solar error untouched, sets the wind error to the thrown message, and
leaves no wind result; symmetrically, a failing solar submission leaves
the stored wind result and wind error untouched. -/
theorem c6_solar_wind_independent (env : Env) (s0 : HomeState)
    (e : ThrownError) :
    ((windSubmitRun env s0).thrown = some e →
      (handleWindSubmit env s0).solarResult = s0.solarResult ∧
      (handleWindSubmit env s0).solarError = s0.solarError ∧
      (handleWindSubmit env s0).windError = e.message ∧
      (handleWindSubmit env s0).windResult = none) ∧
    ((solarSubmitRun env s0).thrown = some e →
      (handleSolarSubmit env s0).windResult = s0.windResult ∧
      (handleSolarSubmit env s0).windError = s0.windError) := by
  constructor
  · intro h
    unfold handleWindSubmit
    unfold windSubmitRun windAttempt windAfterResolve windGatewayCall at h ⊢
    repeat' split at h <;> simp_all
  · intro h
    unfold handleSolarSubmit
    unfold solarSubmitRun solarAttempt solarAfterResolve solarGatewayCall
      at h ⊢
    repeat' split at h <;> simp_all

/-- C6 witness: with a prior successful solar result and a failing wind
backend, a wind submission keeps the solar result, records the wind
failure message, and leaves no wind result. -/
theorem c6_solar_wind_independent_witness :
    (windSubmitRun c6Env c6State).thrown
        = some (.netError "wind backend down") ∧
    (handleWindSubmit c6Env c6State).solarResult = c6State.solarResult ∧
    (handleWindSubmit c6Env c6State).solarError = c6State.solarError ∧
    (handleWindSubmit c6Env c6State).windError
        = ThrownError.message (.netError "wind backend down") ∧
    (handleWindSubmit c6Env c6State).windResult = none :=
  have h : (windSubmitRun c6Env c6State).thrown
      = some (.netError "wind backend down") := by decide
  ⟨h, (c6_solar_wind_independent c6Env c6State
        (.netError "wind backend down")).1 h⟩

/-- C10: a failing solar submission leaves the previously stored solar
result in place while recording the failure message in the solar error
slot, whereas the wind handler clears the stored wind result on entry,
so a failing wind submission ends with no wind result. -/
theorem c10_failure_result_asymmetry (env : Env) (s0 : HomeState)
    (e : ThrownError) :
    ((solarSubmitRun env s0).thrown = some e →
      (handleSolarSubmit env s0).solarResult = s0.solarResult ∧
      (handleSolarSubmit env s0).solarError = e.message) ∧
    ((windSubmitRun env s0).thrown = some e →
      (handleWindSubmit env s0).windResult = none ∧
      (handleWindSubmit env s0).windError = e.message) := by
  constructor
  · intro h
    unfold handleSolarSubmit
    unfold solarSubmitRun solarAttempt solarAfterResolve solarGatewayCall
      at h ⊢
    repeat' split at h <;> simp_all
  · intro h
    unfold handleWindSubmit
    unfold windSubmitRun windAttempt windAfterResolve windGatewayCall at h ⊢
    repeat' split at h <;> simp_all

/-- C10 witness: with prior results stored for both calculations and
both backends failing, the failed solar submission shows the stale
solar result next to the new solar error, while the failed wind
submission leaves no wind result. -/
theorem c10_failure_result_asymmetry_witness :
    (solarSubmitRun c10Env c10State).thrown
        = some (.netError "solar exploded") ∧
    (windSubmitRun c10Env c10State).thrown
        = some (.netError "wind exploded") ∧
    (handleSolarSubmit c10Env c10State).solarResult = some solarA0 ∧
    (handleSolarSubmit c10Env c10State).solarError = "solar exploded" ∧
    (handleWindSubmit c10Env c10State).windResult = none ∧
    (handleWindSubmit c10Env c10State).windError = "wind exploded" :=
  have hs : (solarSubmitRun c10Env c10State).thrown
      = some (.netError "solar exploded") := by decide
  have hw : (windSubmitRun c10Env c10State).thrown
      = some (.netError "wind exploded") := by decide
  have h1 := (c10_failure_result_asymmetry c10Env c10State
      (.netError "solar exploded")).1 hs
  have h2 := (c10_failure_result_asymmetry c10Env c10State
      (.netError "wind exploded")).2 hw
  ⟨hs, hw, h1.1, h1.2, h2.1, h2.2⟩

/-- C5: when the trimmed city name is non-empty and the geocoder
resolves it, both submit handlers overwrite the displayed coordinate
fields with the geocoded values, and any coordinate payload they pass to
the gateway calculation equals the geocoded pair — never the manually
entered one. -/
theorem c5_city_precedence (env : Env) (s0 : HomeState) (glat glon : ℚ)
    (hcity : jsTrim s0.cityName ≠ "") (hgeo : env.geo = .ok glat glon) :
    ((solarSubmitRun env s0).state.latitude = .val glat ∧
     (solarSubmitRun env s0).state.longitude = .val glon ∧
     ∀ p, (solarSubmitRun env s0).gatewayCall = some p →
       p = (JSNum.val glat, JSNum.val glon)) ∧
    ((windSubmitRun env s0).state.latitude = .val glat ∧
     (windSubmitRun env s0).state.longitude = .val glon ∧
     ∀ p, (windSubmitRun env s0).gatewayCall = some p →
       p = (JSNum.val glat, JSNum.val glon)) := by
  constructor
  · unfold solarSubmitRun solarAttempt solarAfterResolve solarGatewayCall
    repeat' split <;> try simp_all
  · unfold windSubmitRun windAttempt windAfterResolve windGatewayCall
    repeat' split <;> try simp_all

/-- C5 witness: with city name "New York" geocoding to (40.71, -74.01)
and manual coordinates (1, 2) also filled in, both handlers display the
geocoded pair and pass it to the calculation. -/
theorem c5_city_precedence_witness :
    ((solarSubmitRun c5Env c5State).state.latitude = .val (4071/100) ∧
     (solarSubmitRun c5Env c5State).state.longitude = .val (-(7401/100)) ∧
     ∀ p, (solarSubmitRun c5Env c5State).gatewayCall = some p →
       p = (JSNum.val (4071/100), JSNum.val (-(7401/100)))) ∧
    ((windSubmitRun c5Env c5State).state.latitude = .val (4071/100) ∧
     (windSubmitRun c5Env c5State).state.longitude = .val (-(7401/100)) ∧
     ∀ p, (windSubmitRun c5Env c5State).gatewayCall = some p →
       p = (JSNum.val (4071/100), JSNum.val (-(7401/100)))) :=
  c5_city_precedence c5Env c5State (4071/100) (-(7401/100))
    (by decide) rfl

/-- Helper: an in-range, non-NaN, nonzero coordinate pair also passes
the pre-flight truthiness/range check of the gateway. -/
theorem gatewayCoordsInvalid_eq_false (lat lon : JSNum)
    (hv : validateCoordinates lat lon = true)
    (hlat : lat.isTruthy = true) (hlon : lon.isTruthy = true) :
    gatewayCoordsInvalid lat lon = false := by
  cases lat with
  | nan => simp [JSNum.isTruthy] at hlat
  | val a =>
      cases lon with
      | nan => simp [JSNum.isTruthy] at hlon
      | val b =>
          simp only [validateCoordinates, JSNum.isNaN, jsGe, jsLe,
            Bool.not_false, Bool.true_and, Bool.and_eq_true,
            decide_eq_true_eq] at hv
          simp only [JSNum.isTruthy, decide_eq_true_eq] at hlat hlon
          simp only [gatewayCoordsInvalid, JSNum.isNaN, JSNum.isTruthy,
            jsLt, jsGt, Bool.or_eq_false_iff, decide_eq_false_iff_not,
            not_lt, not_not]
          refine ⟨⟨⟨⟨⟨⟨⟨?_, ?_⟩, trivial⟩, trivial⟩, ?_⟩, ?_⟩, ?_⟩, ?_⟩
          all_goals simp_all

/-- Helper: a zero (or NaN) coordinate fails the pre-flight check of the
gateway outright. -/
theorem gatewayCoordsInvalid_of_falsy (lat lon : JSNum)
    (h : lat.isTruthy = false ∨ lon.isTruthy = false) :
    gatewayCoordsInvalid lat lon = true := by
  rcases h with h | h <;> simp [gatewayCoordsInvalid, h]

/-- Helper: with no city name, valid coordinates and a passing gateway
check, a solar submission throws nothing or only a network-layer
error. -/
theorem solarSubmitRun_thrown_valid (env : Env) (s : HomeState)
    (hcity : jsTrim s.cityName = "")
    (hv : validateCoordinates s.latitude s.longitude = true)
    (hg : gatewayCoordsInvalid s.latitude s.longitude = false) :
    (solarSubmitRun env s).thrown = none ∨
    ∃ m, (solarSubmitRun env s).thrown = some (.netError m) := by
  unfold solarSubmitRun solarAttempt solarAfterResolve solarGatewayCall
  repeat' split <;> simp_all

/-- Helper: the wind analogue of `solarSubmitRun_thrown_valid`. -/
theorem windSubmitRun_thrown_valid (env : Env) (s : HomeState)
    (hcity : jsTrim s.cityName = "")
    (hv : validateCoordinates s.latitude s.longitude = true)
    (hg : gatewayCoordsInvalid s.latitude s.longitude = false) :
    (windSubmitRun env s).thrown = none ∨
    ∃ m, (windSubmitRun env s).thrown = some (.netError m) := by
  unfold windSubmitRun windAttempt windAfterResolve windGatewayCall
  repeat' split <;> simp_all

/-- Helper: with no city name and coordinates rejected by
`validateCoordinates`, a solar submission throws the form-level
invalid-coordinates error. -/
theorem solarSubmitRun_thrown_invalidForm (env : Env) (s : HomeState)
    (hcity : jsTrim s.cityName = "")
    (hv : validateCoordinates s.latitude s.longitude = false) :
    (solarSubmitRun env s).thrown = some .invalidCoordsForm := by
  unfold solarSubmitRun solarAttempt solarAfterResolve solarGatewayCall
  repeat' split <;> simp_all

/-- Helper: the wind analogue of `solarSubmitRun_thrown_invalidForm`. -/
theorem windSubmitRun_thrown_invalidForm (env : Env) (s : HomeState)
    (hcity : jsTrim s.cityName = "")
    (hv : validateCoordinates s.latitude s.longitude = false) :
    (windSubmitRun env s).thrown = some .invalidCoordsForm := by
  unfold windSubmitRun windAttempt windAfterResolve windGatewayCall
  repeat' split <;> simp_all

/-- Helper: with no city name, coordinates accepted by
`validateCoordinates` but rejected by the pre-flight gateway check, a
solar submission throws the gateway invalid-coordinates error. -/
theorem solarSubmitRun_thrown_invalidGateway (env : Env) (s : HomeState)
    (hcity : jsTrim s.cityName = "")
    (hv : validateCoordinates s.latitude s.longitude = true)
    (hg : gatewayCoordsInvalid s.latitude s.longitude = true) :
    (solarSubmitRun env s).thrown = some .invalidCoordsGateway := by
  unfold solarSubmitRun solarAttempt solarAfterResolve solarGatewayCall
  repeat' split <;> simp_all

/-- Helper: the wind analogue of
`solarSubmitRun_thrown_invalidGateway`. -/
theorem windSubmitRun_thrown_invalidGateway (env : Env) (s : HomeState)
    (hcity : jsTrim s.cityName = "")
    (hv : validateCoordinates s.latitude s.longitude = true)
    (hg : gatewayCoordsInvalid s.latitude s.longitude = true) :
    (windSubmitRun env s).thrown = some .invalidCoordsGateway := by
  unfold windSubmitRun windAttempt windAfterResolve windGatewayCall
  repeat' split <;> simp_all

/-- C2 counterexample: the pair (0, 10) is numeric and in range — it
passes `validateCoordinates` — yet a solar submission with it raises the
client-side invalid-coordinates error of the gateway, because the
truthiness check rejects a zero coordinate. -/
theorem c2_counterexample :
    validateCoordinates (.val 0) (.val 10) = true ∧
    (solarSubmitRun c2Env c2State).thrown = some .invalidCoordsGateway ∧
    (handleSolarSubmit c2Env c2State).solarError
        = "Invalid coordinates provided" ∧
    (windSubmitRun c2Env c2State).thrown = some .invalidCoordsGateway := by
  refine ⟨by decide, by decide, by decide, by decide⟩

/-- C2 (amended): with no city name, a coordinate pair that is numeric,
in range and has both components nonzero never raises a client-side
invalid-coordinates error from either submission; a pair with a NaN or
out-of-range component always raises the form-level one; and an
in-range pair with a zero component raises the gateway-level one. -/
theorem c2_coordinate_validation (env : Env) (s : HomeState)
    (hcity : jsTrim s.cityName = "") :
    (validateCoordinates s.latitude s.longitude = true →
      s.latitude.isTruthy = true → s.longitude.isTruthy = true →
      (∀ e, (solarSubmitRun env s).thrown = some e →
        e.isInvalidCoords = false) ∧
      (∀ e, (windSubmitRun env s).thrown = some e →
        e.isInvalidCoords = false)) ∧
    (validateCoordinates s.latitude s.longitude = false →
      (solarSubmitRun env s).thrown = some .invalidCoordsForm ∧
      (windSubmitRun env s).thrown = some .invalidCoordsForm) ∧
    (validateCoordinates s.latitude s.longitude = true →
      (s.latitude.isTruthy = false ∨ s.longitude.isTruthy = false) →
      (solarSubmitRun env s).thrown = some .invalidCoordsGateway ∧
      (windSubmitRun env s).thrown = some .invalidCoordsGateway) := by
  refine ⟨?_, ?_, ?_⟩
  · intro hv hlat hlon
    have hg := gatewayCoordsInvalid_eq_false s.latitude s.longitude hv hlat hlon
    constructor
    · intro e he
      rcases solarSubmitRun_thrown_valid env s hcity hv hg with h | ⟨m, h⟩ <;>
        rw [h] at he
      · cases he
      · injection he with h2
        subst h2
        rfl
    · intro e he
      rcases windSubmitRun_thrown_valid env s hcity hv hg with h | ⟨m, h⟩ <;>
        rw [h] at he
      · cases he
      · injection he with h2
        subst h2
        rfl
  · intro hv
    exact ⟨solarSubmitRun_thrown_invalidForm env s hcity hv,
           windSubmitRun_thrown_invalidForm env s hcity hv⟩
  · intro hv hfal
    have hg := gatewayCoordsInvalid_of_falsy s.latitude s.longitude hfal
    exact ⟨solarSubmitRun_thrown_invalidGateway env s hcity hv hg,
           windSubmitRun_thrown_invalidGateway env s hcity hv hg⟩

/-- C2 witness: at the valid nonzero pair (40, -74) with failing
backends, the only thrown error is the network one, which is not an
invalid-coordinates error. -/
theorem c2_coordinate_validation_witness :
    (solarSubmitRun c2wEnv c2wState).thrown
        = some (.netError "backend down") ∧
    ThrownError.isInvalidCoords (.netError "backend down") = false :=
  ⟨by decide,
    ((c2_coordinate_validation c2wEnv c2wState (by decide)).1
        (by decide) (by decide) (by decide)).1
      (.netError "backend down") (by decide)⟩

end EcoNomics
